import Mathlib

/-!
Shallow embedding of the two programs of this repository:
  * `src/Lab-3/lab_3.py` — a library inventory manager (Book records with
    title/author/isbn/status, JSON persistence, add/search/issue/return).
  * `src/LAB-1/lab_1.py` — a calorie-tracking menu loop.

Python strings become Lean `String`, Python lists become Lean `List`,
raised-and-caught exceptions become `Except`, and the menu loops become
recursive functions over the list of console inputs.
-/

namespace LabRepo

/-! ### Python string primitives -/

/-- Characters stripped by Python's str.strip with no argument
(space, tab, newline, carriage return, vertical tab, form feed). -/
def pyIsSpace (c : Char) : Bool :=
  c = ' ' || c = '\t' || c = '\n' || c = '\r' ||
  c = Char.ofNat 11 || c = Char.ofNat 12

/-- Strip whitespace from both ends of a character list. -/
def pyStripList (l : List Char) : List Char :=
  ((l.dropWhile pyIsSpace).reverse.dropWhile pyIsSpace).reverse

/-- Python str.strip(): remove leading and trailing whitespace. -/
def pyStrip (s : String) : String :=
  ⟨pyStripList s.data⟩

/-- ASCII lower-casing of one character, as Python str.lower does on ASCII. -/
def pyLowerChar (c : Char) : Char :=
  if 'A' ≤ c ∧ c ≤ 'Z' then Char.ofNat (c.toNat + 32) else c

/-- Python str.lower() (ASCII fragment, which is all the programs use). -/
def pyLower (s : String) : String :=
  ⟨s.data.map pyLowerChar⟩

/-- Test whether the first list starts with the second list. -/
def startsWithL : List Char → List Char → Bool
  | _, [] => true
  | [], _ :: _ => false
  | a :: as, b :: bs => a = b && startsWithL as bs

/-- Python's substring membership test: does needle occur inside hay. -/
def containsSub (hay needle : List Char) : Bool :=
  match hay with
  | [] => needle.isEmpty
  | _ :: t => startsWithL hay needle || containsSub t needle

/-! ### Book (src/Lab-3/lab_3.py, class Book) -/

/-- A Book record: the four string fields of the Python dataclass. -/
structure Book where
  title : String
  author : String
  isbn : String
  status : String
  deriving DecidableEq, Repr

/-- Book construction including the dataclass post-init hook: title,
author and isbn are stripped, and a status outside the two enum values
is replaced by "available". -/
def mkBook (title author isbn status : String) : Book :=
  { title := pyStrip title
    author := pyStrip author
    isbn := pyStrip isbn
    status := if status = "available" ∨ status = "issued" then status
              else "available" }

/-- Book.is_available: the status equals "available". -/
def Book.is_available (b : Book) : Bool :=
  b.status = "available"

/-- Book.issue: if available, set status to "issued" and report True;
otherwise report False and leave the record unchanged. -/
def Book.issue (b : Book) : Bool × Book :=
  if b.is_available then (true, { b with status := "issued" })
  else (false, b)

/-- Book.return_book: if not available, set status to "available" and
report True; otherwise report False and leave the record unchanged. -/
def Book.return_book (b : Book) : Bool × Book :=
  if !b.is_available then (true, { b with status := "available" })
  else (false, b)

/-- Book.__str__: the display line produced for a record. -/
def Book.toStr (b : Book) : String :=
  b.title ++ " — " ++ b.author ++ " (ISBN: " ++ b.isbn ++ ") [" ++ b.status ++ "]"

/-- A JSON object entry for a book: each of the four keys may be absent.
Values are strings, as the program itself always writes. -/
structure Entry where
  title : Option String
  author : Option String
  isbn : Option String
  status : Option String
  deriving DecidableEq, Repr

/-- Book.to_dict: serialize all four fields. -/
def Book.to_dict (b : Book) : Entry :=
  ⟨some b.title, some b.author, some b.isbn, some b.status⟩

/-- Book.from_dict: read each field with its default (empty string for
text fields, "available" for status), strip it, and construct the Book
(construction strips again and normalizes the status). -/
def Book.from_dict (e : Entry) : Book :=
  mkBook (pyStrip (e.title.getD "")) (pyStrip (e.author.getD ""))
    (pyStrip (e.isbn.getD "")) (pyStrip (e.status.getD "available"))

/-- Well-formedness every Python-constructed Book enjoys after post-init:
the three text fields are stripped and the status is one of the two
enum values. -/
def Book.Wf (b : Book) : Prop :=
  pyStrip b.title = b.title ∧ pyStrip b.author = b.author ∧
  pyStrip b.isbn = b.isbn ∧ (b.status = "available" ∨ b.status = "issued")

/-! ### LibraryInventory operations (src/Lab-3/lab_3.py)

The in-memory catalog is the `books` list; each method becomes a pure
function of that list. -/

/-- LibraryInventory.search_by_isbn: strip the argument and return the
first book whose isbn equals it, if any. -/
def search_by_isbn (books : List Book) (isbn : String) : Option Book :=
  books.find? (fun b => b.isbn = pyStrip isbn)

/-- LibraryInventory.add_book: raise ValueError when a book with the
same ISBN exists, otherwise append at the end. -/
def add_book (books : List Book) (book : Book) : Except String (List Book) :=
  match search_by_isbn books book.isbn with
  | some _ => Except.error "A book with this ISBN already exists."
  | none => Except.ok (books ++ [book])

/-- LibraryInventory.search_by_title: strip and lower-case the query,
keep the books whose lower-cased title contains it. -/
def search_by_title (books : List Book) (title_query : String) : List Book :=
  let q := pyLower (pyStrip title_query)
  books.filter (fun b => containsSub (pyLower b.title).data q.data)

/-- LibraryInventory.display_all: the display line of every book, in
catalog order. -/
def display_all (books : List Book) : List String :=
  books.map Book.toStr

/-- Apply the in-place mutation f to the first book satisfying p,
returning the reported Bool and the updated list; report False and
leave the list unchanged when no book matches. This is how the Python
search-then-mutate pair acts on the books list. -/
def updateFirst (p : Book → Bool) (f : Book → Bool × Book) :
    List Book → Bool × List Book
  | [] => (false, [])
  | b :: bs =>
    if p b then
      ((f b).1, (f b).2 :: bs)
    else
      let r := updateFirst p f bs
      (r.1, b :: r.2)

/-- LibraryInventory.issue_book_by_isbn: find the book by ISBN; False
when absent, otherwise the result of Book.issue on it. -/
def issue_book_by_isbn (books : List Book) (isbn : String) : Bool × List Book :=
  updateFirst (fun b => b.isbn = pyStrip isbn) Book.issue books

/-- LibraryInventory.return_book_by_isbn: find the book by ISBN; False
when absent, otherwise the result of Book.return_book on it. -/
def return_book_by_isbn (books : List Book) (isbn : String) : Bool × List Book :=
  updateFirst (fun b => b.isbn = pyStrip isbn) Book.return_book books

/-! ### Persistence (LibraryInventory.load / save)

A JSON document is either an array of book entries or anything else;
the file on disk is either absent or holds a document. -/

/-- A parsed JSON document: a top-level array of entries, or any
non-array root. -/
inductive Json where
  | jarr : List Entry → Json
  | other : Json
  deriving DecidableEq

/-- LibraryInventory.save: serialize every book with to_dict into a
top-level JSON array. -/
def save (books : List Book) : Json :=
  Json.jarr (books.map Book.to_dict)

/-- Body of LibraryInventory.load before its exception handler: an
absent file gives an empty catalog (not an error), a non-array root
raises ValueError, and an array is mapped through Book.from_dict. -/
def loadBody : Option Json → Except String (List Book)
  | none => Except.ok []
  | some (Json.jarr entries) => Except.ok (entries.map Book.from_dict)
  | some Json.other => Except.error "Catalog JSON root must be a list"

/-- LibraryInventory.load: run the body; any raised exception is caught
and logged and the catalog falls back to empty. -/
def load (file : Option Json) : List Book :=
  match loadBody file with
  | Except.ok bs => bs
  | Except.error _ => []

/-! ### Calorie tracker (src/LAB-1/lab_1.py)

The loop state is the calories list and the running total; the console
inputs are a list of strings consumed in order. -/

/-- State of the tracker loop: the calories list and the running total. -/
structure TrackerState where
  calories : List Int
  total : Int
  deriving DecidableEq, Repr

/-- Outcome of running the tracker on a finite input script: a normal
exit through option 4, a crash from an uncaught exception, or
exhaustion of the script while awaiting input. -/
inductive TrackerResult where
  | exited : TrackerState → TrackerResult
  | crashed : TrackerState → TrackerResult
  | ranOut : TrackerState → TrackerResult
  deriving DecidableEq, Repr

/-- The state a tracker run ends in, whatever the outcome. -/
def TrackerResult.state : TrackerResult → TrackerState
  | .exited st => st
  | .crashed st => st
  | .ranOut st => st

/-- Numeric value of a list of ASCII digits. -/
def digitsVal (l : List Char) : Nat :=
  l.foldl (fun a c => a * 10 + (c.toNat - 48)) 0

/-- Signed digit parsing: at least one ASCII digit is required. -/
def pyIntDigits (sign : Int) (digits : List Char) : Option Int :=
  if digits ≠ [] ∧ digits.all Char.isDigit then
    some (sign * (digitsVal digits : Int))
  else none

/-- Python int() applied to a string: strip whitespace, allow one
leading sign, then require at least one ASCII digit; none models the
ValueError raised otherwise. -/
def pyInt (s : String) : Option Int :=
  match pyStripList s.data with
  | '+' :: rest => pyIntDigits 1 rest
  | '-' :: rest => pyIntDigits (-1) rest
  | l => pyIntDigits 1 l

/-- The LAB-1 menu loop, consuming the input script: option 1 reads a
meal name and a calorie string (int() on it crashes the program when it
is not numeric, there is no handler), appends the value and adds it to
the total; options 2 and 3 only print; option 4 exits; anything else
re-prompts. -/
def runTracker : List String → TrackerState → TrackerResult
  | [], st => .ranOut st
  | choice :: rest, st =>
    if choice = "1" then
      match rest with
      | [] => .ranOut st
      | [_] => .ranOut st
      | _name :: calStr :: rest2 =>
        match pyInt calStr with
        | none => .crashed st
        | some cal =>
          runTracker rest2 ⟨st.calories ++ [cal], st.total + cal⟩
    else if choice = "2" then runTracker rest st
    else if choice = "3" then runTracker rest st
    else if choice = "4" then .exited st
    else runTracker rest st

/-! ### Derived notions used to state the claims -/

/-- Replace the status of the first book whose isbn equals s, leaving
everything else unchanged: the list-level effect of the Python
search-then-mutate idiom. -/
def setStatusFirst (s stat : String) : List Book → List Book
  | [] => []
  | b :: bs =>
    if b.isbn = s then { b with status := stat } :: bs
    else b :: setStatusFirst s stat bs

/-- Run a sequence of add_book calls starting from the empty catalog,
stopping at the first ValueError. -/
def addSeq (bs : List Book) : Except String (List Book) :=
  bs.foldlM add_book []

/-- Status is one of the two enum values. -/
def ValidStatus (b : Book) : Prop :=
  b.status = "available" ∨ b.status = "issued"

/-- Catalogs reachable from the empty catalog through the program's
in-memory mutations: successful adds of post-init books (a failed add
raises before touching the list), issues and returns. -/
inductive Reach : List Book → Prop
  | empty : Reach []
  | add (books : List Book) (book : Book) (books' : List Book) :
      Reach books → pyStrip book.isbn = book.isbn →
      add_book books book = Except.ok books' → Reach books'
  | issue (books : List Book) (isbn : String) :
      Reach books → Reach (issue_book_by_isbn books isbn).2
  | ret (books : List Book) (isbn : String) :
      Reach books → Reach (return_book_by_isbn books isbn).2

/-- A JSON entry that, fed to load twice in one array, duplicates an
ISBN. -/
def dupEntry : Entry := ⟨some "A", some "B", some "1", some "available"⟩

/-! ### Helper lemmas -/

instance (b : Book) : Decidable b.Wf := by
  unfold Book.Wf; exact inferInstance

/-- Deserializing a serialized well-formed book gives the book back. -/
theorem from_dict_to_dict (b : Book) (h : b.Wf) :
    Book.from_dict b.to_dict = b := by
  obtain ⟨ht, ha, hi, hs⟩ := h
  unfold Book.from_dict Book.to_dict mkBook
  cases hs with
  | inl hs => cases b; simp_all [hs, ht, ha, hi] <;> decide
  | inr hs => cases b; simp_all [hs, ht, ha, hi] <;> decide

/-! ### C1 -/

/-- C1: for every catalog of well-formed books, including the empty
one, save followed by load on the same path yields the same records in
the same order with the same title, author, isbn and status values. -/
theorem save_load_roundtrip (books : List Book) (h : ∀ b ∈ books, b.Wf) :
    load (some (save books)) = books := by
  unfold load loadBody save
  simp only [List.map_map]
  induction books with
  | nil => rfl
  | cons b bs ih =>
    simp only [List.map_cons, Function.comp_apply]
    rw [from_dict_to_dict b (h b (by simp))]
    have := ih (fun x hx => h x (by simp [hx]))
    simpa using this

/-- Witness for C1: the round trip evaluated on a one-book catalog and
on the empty catalog. -/
theorem save_load_roundtrip_witness :
    load (some (save [mkBook "Dune" "Herbert" "111" "available"])) =
      [mkBook "Dune" "Herbert" "111" "available"] ∧
    load (some (save [])) = [] :=
  ⟨save_load_roundtrip [mkBook "Dune" "Herbert" "111" "available"] (by decide),
   save_load_roundtrip [] (by simp)⟩

/-! ### C2 -/

/-- C2: adding a book whose ISBN is already present fails with the
duplicate-identifier error (and, the result being an error, the caller's
catalog is untouched); otherwise the book is appended at the end with
all existing records kept in order. -/
theorem add_book_spec (books : List Book) (book : Book) :
    ((∃ b ∈ books, b.isbn = pyStrip book.isbn) →
      add_book books book = Except.error "A book with this ISBN already exists.") ∧
    ((∀ b ∈ books, b.isbn ≠ pyStrip book.isbn) →
      add_book books book = Except.ok (books ++ [book])) := by
  constructor
  · rintro ⟨b, hb, hisbn⟩
    unfold add_book
    cases hfind : search_by_isbn books book.isbn with
    | some _ => rfl
    | none =>
      exfalso
      unfold search_by_isbn at hfind
      rw [List.find?_eq_none] at hfind
      exact hfind b hb (by simpa using hisbn)
  · intro h
    unfold add_book
    cases hfind : search_by_isbn books book.isbn with
    | none => rfl
    | some b =>
      exfalso
      unfold search_by_isbn at hfind
      exact h b (List.mem_of_find?_eq_some hfind)
        (by simpa using List.find?_some hfind)

/-- Witness for C2: the duplicate case and the fresh case evaluated on
concrete catalogs. -/
theorem add_book_spec_witness :
    add_book [mkBook "A" "B" "1" "available"] (mkBook "C" "D" "1" "available") =
      Except.error "A book with this ISBN already exists." ∧
    add_book [mkBook "A" "B" "1" "available"] (mkBook "C" "D" "2" "available") =
      Except.ok [mkBook "A" "B" "1" "available", mkBook "C" "D" "2" "available"] :=
  ⟨(add_book_spec [mkBook "A" "B" "1" "available"] (mkBook "C" "D" "1" "available")).1
      ⟨mkBook "A" "B" "1" "available", by simp, by decide⟩,
   (add_book_spec [mkBook "A" "B" "1" "available"] (mkBook "C" "D" "2" "available")).2
      (by decide)⟩

/-! ### C7 -/

/-- C7: load on an absent file yields the empty catalog without any
error being raised; load on a file whose JSON root is not an array
raises the validation error, which is caught so that the in-memory
catalog falls back to empty; in neither case does load propagate an
exception. -/
theorem load_missing_or_bad_root :
    load none = [] ∧
    loadBody none = Except.ok [] ∧
    loadBody (some Json.other) = Except.error "Catalog JSON root must be a list" ∧
    load (some Json.other) = [] :=
  ⟨rfl, rfl, rfl, rfl⟩

/-! ### C8 -/

/-- C8: search_by_title returns a subsequence of the catalog (so the
matches appear in catalog order and nothing else appears), a record is
returned exactly when the stripped lower-cased query occurs inside its
lower-cased title, and on the concrete catalog the query war matches
Warfare and The Art of War but not Peace. -/
theorem search_by_title_spec (books : List Book) (q : String) :
    (search_by_title books q).Sublist books ∧
    (∀ b ∈ books, (b ∈ search_by_title books q ↔
      containsSub (pyLower b.title).data (pyLower (pyStrip q)).data = true)) ∧
    search_by_title
        [mkBook "Warfare" "X" "1" "available",
         mkBook "Peace" "Y" "2" "available",
         mkBook "The Art of War" "Z" "3" "available"] "war" =
      [mkBook "Warfare" "X" "1" "available",
       mkBook "The Art of War" "Z" "3" "available"] := by
  refine ⟨?_, ?_, by decide⟩
  · unfold search_by_title
    exact List.filter_sublist books
  · intro b hb
    unfold search_by_title
    simp [List.mem_filter, hb]

/-- Witness for C8: the membership characterization evaluated on a
concrete one-book catalog. -/
theorem search_by_title_spec_witness :
    mkBook "Warfare" "X" "1" "available" ∈
      search_by_title [mkBook "Warfare" "X" "1" "available"] "WAR" :=
  ((search_by_title_spec [mkBook "Warfare" "X" "1" "available"] "WAR").2.1
    (mkBook "Warfare" "X" "1" "available") (by simp)).mpr (by decide)

/-! ### C9 -/

/-- C9: in the calorie tracker, choosing option 1 and answering the
calorie prompt with a string int() rejects crashes the program at once:
the run ends in the crashed outcome with the state unchanged, whatever
inputs were still pending. -/
theorem nonnumeric_calorie_crash (st : TrackerState) (mealName calStr : String)
    (rest : List String) (h : pyInt calStr = none) :
    runTracker ("1" :: mealName :: calStr :: rest) st = TrackerResult.crashed st := by
  simp [runTracker, h]

/-- Witness for C9: the string abc is rejected by int() and crashes a
concrete run even though an exit command was still pending. -/
theorem nonnumeric_calorie_crash_witness :
    pyInt "abc" = none ∧
    runTracker ["1", "lunch", "abc", "4"] ⟨[], 0⟩ =
      TrackerResult.crashed ⟨[], 0⟩ :=
  ⟨by decide, nonnumeric_calorie_crash ⟨[], 0⟩ "lunch" "abc" ["4"] (by decide)⟩

/-! ### C10 -/

/-- C10: whenever the running total equals the sum of the recorded
calorie entries, it still does after the tracker consumes any input
script, whatever the outcome; so option 3 always prints exactly the sum
of the entries option 2 lists. -/
theorem tracker_total_invariant (inputs : List String) (st : TrackerState)
    (h : st.total = st.calories.sum) :
    (runTracker inputs st).state.total =
      (runTracker inputs st).state.calories.sum := by
  have main : ∀ n (inputs : List String) (st : TrackerState), inputs.length ≤ n →
      st.total = st.calories.sum →
      (runTracker inputs st).state.total =
        (runTracker inputs st).state.calories.sum := by
    intro n
    induction n with
    | zero =>
      intro inputs st hlen h
      have hnil : inputs = [] := List.eq_nil_of_length_eq_zero (Nat.le_zero.mp hlen)
      subst hnil
      simpa [runTracker, TrackerResult.state] using h
    | succ n ih =>
      intro inputs st hlen h
      cases inputs with
      | nil => simpa [runTracker, TrackerResult.state] using h
      | cons choice rest =>
        by_cases h1 : choice = "1"
        · subst h1
          cases rest with
          | nil => simpa [runTracker, TrackerResult.state] using h
          | cons nm rest1 =>
            cases rest1 with
            | nil => simpa [runTracker, TrackerResult.state] using h
            | cons calStr rest2 =>
              cases hc : pyInt calStr with
              | none => simpa [runTracker, TrackerResult.state, hc] using h
              | some cal =>
                have hlen2 : rest2.length ≤ n := by
                  simp only [List.length_cons] at hlen; omega
                have h2 : (TrackerState.mk (st.calories ++ [cal]) (st.total + cal)).total
                    = (TrackerState.mk (st.calories ++ [cal])
                        (st.total + cal)).calories.sum := by
                  simp [h]
                have := ih rest2 _ hlen2 h2
                simpa [runTracker, hc] using this
        · have hlen2 : rest.length ≤ n := by
            simp only [List.length_cons] at hlen; omega
          by_cases h2 : choice = "2"
          · subst h2
            have heq : runTracker ("2" :: rest) st = runTracker rest st := by
              rw [runTracker.eq_def]; simp
            rw [heq]; exact ih rest st hlen2 h
          by_cases h3 : choice = "3"
          · subst h3
            have heq : runTracker ("3" :: rest) st = runTracker rest st := by
              rw [runTracker.eq_def]; simp
            rw [heq]; exact ih rest st hlen2 h
          by_cases h4 : choice = "4"
          · subst h4
            have heq : runTracker ("4" :: rest) st = TrackerResult.exited st := by
              rw [runTracker.eq_def]; simp
            rw [heq]; exact h
          · have heq : runTracker (choice :: rest) st = runTracker rest st := by
              rw [runTracker.eq_def]; simp [h1, h2, h3, h4]
            rw [heq]; exact ih rest st hlen2 h
  exact main inputs.length inputs st le_rfl h

/-- Witness for C10: the invariant evaluated along a concrete run that
adds one meal and exits. -/
theorem tracker_total_invariant_witness :
    (runTracker ["1", "lunch", "100", "4"] ⟨[], 0⟩).state.total =
      (runTracker ["1", "lunch", "100", "4"] ⟨[], 0⟩).state.calories.sum :=
  tracker_total_invariant ["1", "lunch", "100", "4"] ⟨[], 0⟩ (by decide)

/-! ### C4 -/

/-- When no book matches, the search-then-mutate idiom reports False
and leaves the list unchanged. -/
theorem updateFirst_of_find?_none (p : Book → Bool) (f : Book → Bool × Book)
    (books : List Book) (h : books.find? p = none) :
    updateFirst p f books = (false, books) := by
  induction books with
  | nil => rfl
  | cons a bs ih =>
    cases hp : p a with
    | true => rw [List.find?_cons_of_pos _ hp] at h; exact absurd h (by simp)
    | false =>
      rw [List.find?_cons_of_neg _ (by simp [hp])] at h
      unfold updateFirst
      simp [hp, ih h]

/-- When the first matching book is left unchanged by the mutation with
a False report, the whole list is unchanged with a False report. -/
theorem updateFirst_of_find?_some_id (p : Book → Bool) (f : Book → Bool × Book)
    (books : List Book) (b : Book) (h : books.find? p = some b)
    (hf : f b = (false, b)) :
    updateFirst p f books = (false, books) := by
  induction books with
  | nil => simp at h
  | cons a bs ih =>
    cases hp : p a with
    | true =>
      rw [List.find?_cons_of_pos _ hp] at h
      injection h with h
      subst h
      unfold updateFirst
      simp [hp, hf]
    | false =>
      rw [List.find?_cons_of_neg _ (by simp [hp])] at h
      unfold updateFirst
      simp [hp, ih h]

/-- Book.issue on the first available book with a given ISBN sets its
status to issued, reporting True. -/
theorem updateFirst_issue_set (s : String) (books : List Book) (b : Book)
    (h : books.find? (fun x => x.isbn = s) = some b)
    (hb : b.status = "available") :
    updateFirst (fun x => x.isbn = s) Book.issue books =
      (true, setStatusFirst s "issued" books) := by
  induction books with
  | nil => simp at h
  | cons a bs ih =>
    by_cases hp : a.isbn = s
    · rw [List.find?_cons_of_pos _ (by simpa using hp)] at h
      injection h with h
      subst h
      unfold updateFirst setStatusFirst Book.issue Book.is_available
      simp [hp, hb]
    · rw [List.find?_cons_of_neg _ (by simpa using hp)] at h
      unfold updateFirst setStatusFirst
      simp [hp, ih h]

/-- Book.return_book on the first non-available book with a given ISBN
sets its status to available, reporting True. -/
theorem updateFirst_return_set (s : String) (books : List Book) (b : Book)
    (h : books.find? (fun x => x.isbn = s) = some b)
    (hb : b.status ≠ "available") :
    updateFirst (fun x => x.isbn = s) Book.return_book books =
      (true, setStatusFirst s "available" books) := by
  induction books with
  | nil => simp at h
  | cons a bs ih =>
    by_cases hp : a.isbn = s
    · rw [List.find?_cons_of_pos _ (by simpa using hp)] at h
      injection h with h
      subst h
      unfold updateFirst setStatusFirst Book.return_book Book.is_available
      simp [hp, hb]
    · rw [List.find?_cons_of_neg _ (by simpa using hp)] at h
      unfold updateFirst setStatusFirst
      simp [hp, ih h]

/-- C4: issue reports failure and changes nothing when the ISBN is
absent or the record is already issued, and marks the record issued
when it is available; return reports failure when the ISBN is absent or
the record is already available, and marks the record available when it
is issued. -/
theorem issue_return_spec (books : List Book) (isbn : String) :
    (search_by_isbn books isbn = none →
      issue_book_by_isbn books isbn = (false, books) ∧
      return_book_by_isbn books isbn = (false, books)) ∧
    (∀ b, search_by_isbn books isbn = some b →
      (b.status = "issued" → issue_book_by_isbn books isbn = (false, books)) ∧
      (b.status = "available" →
        issue_book_by_isbn books isbn =
          (true, setStatusFirst (pyStrip isbn) "issued" books)) ∧
      (b.status = "available" → return_book_by_isbn books isbn = (false, books)) ∧
      (b.status = "issued" →
        return_book_by_isbn books isbn =
          (true, setStatusFirst (pyStrip isbn) "available" books))) := by
  constructor
  · intro h
    unfold search_by_isbn at h
    exact ⟨updateFirst_of_find?_none _ _ _ h, updateFirst_of_find?_none _ _ _ h⟩
  · intro b h
    unfold search_by_isbn at h
    refine ⟨?_, ?_, ?_, ?_⟩
    · intro hb
      refine updateFirst_of_find?_some_id _ _ _ _ h ?_
      unfold Book.issue Book.is_available
      simp [hb]
    · intro hb
      exact updateFirst_issue_set _ _ _ h hb
    · intro hb
      refine updateFirst_of_find?_some_id _ _ _ _ h ?_
      unfold Book.return_book Book.is_available
      simp [hb]
    · intro hb
      exact updateFirst_return_set _ _ _ h (by simp [hb])

/-- Witness for C4: all five behaviors evaluated on a concrete two-book
catalog. -/
theorem issue_return_spec_witness :
    issue_book_by_isbn
        [mkBook "A" "B" "1" "available", mkBook "C" "D" "2" "issued"] "9" =
      (false, [mkBook "A" "B" "1" "available", mkBook "C" "D" "2" "issued"]) ∧
    issue_book_by_isbn
        [mkBook "A" "B" "1" "available", mkBook "C" "D" "2" "issued"] "2" =
      (false, [mkBook "A" "B" "1" "available", mkBook "C" "D" "2" "issued"]) ∧
    issue_book_by_isbn
        [mkBook "A" "B" "1" "available", mkBook "C" "D" "2" "issued"] "1" =
      (true, setStatusFirst (pyStrip "1") "issued"
        [mkBook "A" "B" "1" "available", mkBook "C" "D" "2" "issued"]) ∧
    return_book_by_isbn
        [mkBook "A" "B" "1" "available", mkBook "C" "D" "2" "issued"] "1" =
      (false, [mkBook "A" "B" "1" "available", mkBook "C" "D" "2" "issued"]) ∧
    return_book_by_isbn
        [mkBook "A" "B" "1" "available", mkBook "C" "D" "2" "issued"] "2" =
      (true, setStatusFirst (pyStrip "2") "available"
        [mkBook "A" "B" "1" "available", mkBook "C" "D" "2" "issued"]) := by
  refine ⟨((issue_return_spec
      [mkBook "A" "B" "1" "available", mkBook "C" "D" "2" "issued"] "9").1
      (by decide)).1,
    ((issue_return_spec
      [mkBook "A" "B" "1" "available", mkBook "C" "D" "2" "issued"] "2").2
      (mkBook "C" "D" "2" "issued") (by decide)).1 (by decide),
    ((issue_return_spec
      [mkBook "A" "B" "1" "available", mkBook "C" "D" "2" "issued"] "1").2
      (mkBook "A" "B" "1" "available") (by decide)).2.1 (by decide),
    ((issue_return_spec
      [mkBook "A" "B" "1" "available", mkBook "C" "D" "2" "issued"] "1").2
      (mkBook "A" "B" "1" "available") (by decide)).2.2.1 (by decide),
    ((issue_return_spec
      [mkBook "A" "B" "1" "available", mkBook "C" "D" "2" "issued"] "2").2
      (mkBook "C" "D" "2" "issued") (by decide)).2.2.2 (by decide)⟩

/-! ### C3 -/

/-- Folding add_book over books with pairwise distinct stripped ISBNs
appends them all in order, from any accumulator disjoint from them. -/
theorem foldlM_add_book (bs : List Book) : ∀ acc : List Book,
    (∀ b ∈ bs, pyStrip b.isbn = b.isbn) →
    ((acc ++ bs).map Book.isbn).Nodup →
    List.foldlM add_book acc bs = Except.ok (acc ++ bs) := by
  induction bs with
  | nil => intro acc _ _; simp; rfl
  | cons b rest ih =>
    intro acc hstrip hnodup
    have hadd : add_book acc b = Except.ok (acc ++ [b]) := by
      unfold add_book
      cases hfind : search_by_isbn acc b.isbn with
      | none => rfl
      | some x =>
        exfalso
        unfold search_by_isbn at hfind
        have hx := List.find?_some hfind
        have hmem := List.mem_of_find?_eq_some hfind
        have hxb : x.isbn = b.isbn := by
          have hx2 : x.isbn = pyStrip b.isbn := by simpa using hx
          rwa [hstrip b (by simp)] at hx2
        rw [List.map_append, List.nodup_append] at hnodup
        exact hnodup.2.2 (List.mem_map.mpr ⟨x, hmem, hxb⟩) (by simp)
    rw [List.foldlM_cons, hadd]
    have hre : (acc ++ [b]) ++ rest = acc ++ b :: rest := by simp
    have := ih (acc ++ [b]) (fun x hx => hstrip x (by simp [hx]))
      (by rw [hre]; exact hnodup)
    simpa [hre] using this

/-- C3: starting from the empty catalog, a sequence of adds with
pairwise distinct ISBNs all succeeds, the resulting catalog is the
insertion sequence itself, its size is the number of adds, and
display_all lists the records in insertion order. -/
theorem add_seq_spec (bs : List Book)
    (hwf : ∀ b ∈ bs, pyStrip b.isbn = b.isbn)
    (hnodup : (bs.map Book.isbn).Nodup) :
    addSeq bs = Except.ok bs ∧
    ∀ cat, addSeq bs = Except.ok cat →
      cat.length = bs.length ∧ display_all cat = bs.map Book.toStr := by
  have h0 : addSeq bs = Except.ok bs := by
    unfold addSeq
    simpa using foldlM_add_book bs [] hwf (by simpa using hnodup)
  refine ⟨h0, ?_⟩
  intro cat hcat
  rw [h0] at hcat
  injection hcat with hcat
  subst hcat
  exact ⟨rfl, rfl⟩

/-- Witness for C3: a two-book insertion sequence evaluated concretely. -/
theorem add_seq_spec_witness :
    addSeq [mkBook "A" "B" "1" "available", mkBook "C" "D" "2" "issued"] =
      Except.ok [mkBook "A" "B" "1" "available", mkBook "C" "D" "2" "issued"] :=
  (add_seq_spec [mkBook "A" "B" "1" "available", mkBook "C" "D" "2" "issued"]
    (by decide) (by decide)).1

/-! ### C5 -/

/-- Counterexample to C5 as stated: load applied to a JSON array whose
two entries carry the same ISBN produces a catalog in which two records
share the ISBN 1, so load from an arbitrary JSON file does not preserve
ISBN uniqueness. -/
theorem load_duplicate_isbn_counterexample :
    (load (some (Json.jarr [dupEntry, dupEntry]))).map Book.isbn = ["1", "1"] ∧
    ¬ ((load (some (Json.jarr [dupEntry, dupEntry]))).map Book.isbn).Nodup :=
  ⟨by decide, by decide⟩

/-- A mutation that never changes the isbn field leaves the ISBN list
of the catalog unchanged. -/
theorem updateFirst_map_isbn (p : Book → Bool) (f : Book → Bool × Book)
    (hf : ∀ b, ((f b).2).isbn = b.isbn) (books : List Book) :
    ((updateFirst p f books).2).map Book.isbn = books.map Book.isbn := by
  induction books with
  | nil => rfl
  | cons a bs ih =>
    unfold updateFirst
    by_cases hp : p a
    · simp [hp, hf a]
    · simp [hp, ih]

/-- Book.issue never changes the isbn field. -/
theorem issue_isbn (b : Book) : ((Book.issue b).2).isbn = b.isbn := by
  unfold Book.issue
  by_cases h : b.is_available <;> simp [h]

/-- Book.return_book never changes the isbn field. -/
theorem return_book_isbn (b : Book) : ((Book.return_book b).2).isbn = b.isbn := by
  unfold Book.return_book
  by_cases h : b.is_available <;> simp [h]

/-- C5 amended: every catalog reachable from the empty catalog through
the in-memory operations (successful adds of post-init books, issues,
returns) has pairwise distinct ISBNs; load is excluded because it
copies whatever the file holds. -/
theorem isbn_unique_reachable (books : List Book) (h : Reach books) :
    (books.map Book.isbn).Nodup := by
  induction h with
  | empty => simp
  | add books book books' hr hstrip hadd ih =>
    unfold add_book at hadd
    cases hfind : search_by_isbn books book.isbn with
    | some x => rw [hfind] at hadd; exact absurd hadd (by simp)
    | none =>
      rw [hfind] at hadd
      injection hadd with hadd
      subst hadd
      rw [List.map_append, List.nodup_append]
      refine ⟨ih, by simp, ?_⟩
      intro x hx hx2
      have hxb : x = book.isbn := by simpa using hx2
      subst hxb
      unfold search_by_isbn at hfind
      rw [List.find?_eq_none] at hfind
      obtain ⟨y, hy, hyeq⟩ := List.mem_map.mp hx
      exact hfind y hy (by simp [hyeq, hstrip])
  | issue books isbn hr ih =>
    unfold issue_book_by_isbn
    rw [updateFirst_map_isbn _ _ issue_isbn books]
    exact ih
  | ret books isbn hr ih =>
    unfold return_book_by_isbn
    rw [updateFirst_map_isbn _ _ return_book_isbn books]
    exact ih

/-- Witness for the amended C5: a concrete one-step reachable catalog. -/
theorem isbn_unique_reachable_witness :
    ([mkBook "A" "B" "1" "available"].map Book.isbn).Nodup :=
  isbn_unique_reachable [mkBook "A" "B" "1" "available"]
    (Reach.add [] (mkBook "A" "B" "1" "available")
      [mkBook "A" "B" "1" "available"] Reach.empty (by decide) rfl)

/-! ### C6 -/

/-- Construction always yields one of the two enum statuses. -/
theorem mkBook_valid (t a i s : String) : ValidStatus (mkBook t a i s) := by
  unfold ValidStatus mkBook
  by_cases h : s = "available" ∨ s = "issued"
  · simpa [if_pos h] using h
  · simp [if_neg h]

/-- Deserialization always yields one of the two enum statuses. -/
theorem from_dict_valid (e : Entry) : ValidStatus (Book.from_dict e) :=
  mkBook_valid _ _ _ _

/-- Every book produced by load has one of the two enum statuses. -/
theorem load_valid (file : Option Json) : ∀ b ∈ load file, ValidStatus b := by
  intro b hb
  cases file with
  | none => simp [load, loadBody] at hb
  | some j =>
    cases j with
    | other => simp [load, loadBody] at hb
    | jarr es =>
      simp only [load, loadBody, List.mem_map] at hb
      obtain ⟨e, _, he⟩ := hb
      rw [← he]
      exact from_dict_valid e

/-- A property of books preserved by the mutation is preserved across
the whole list by the search-then-mutate idiom. -/
theorem updateFirst_preserves (P : Book → Prop) (p : Book → Bool)
    (f : Book → Bool × Book) (hf : ∀ b, P b → P (f b).2) (books : List Book)
    (h : ∀ b ∈ books, P b) : ∀ b ∈ (updateFirst p f books).2, P b := by
  induction books with
  | nil => simp [updateFirst]
  | cons a bs ih =>
    unfold updateFirst
    by_cases hp : p a
    · simp only [hp, if_pos]
      intro b hb
      rcases List.mem_cons.mp hb with h1 | h1
      · rw [h1]; exact hf a (h a (by simp))
      · exact h b (by simp [h1])
    · simp only [hp, if_neg, Bool.false_eq_true, not_false_iff]
      intro b hb
      rcases List.mem_cons.mp hb with h1 | h1
      · rw [h1]; exact h a (by simp)
      · exact ih (fun x hx => h x (by simp [hx])) b h1

/-- Book.issue keeps the status within the two enum values. -/
theorem issue_valid (b : Book) (h : ValidStatus b) :
    ValidStatus (Book.issue b).2 := by
  unfold Book.issue
  by_cases ha : b.is_available
  · simp only [ha, if_pos]
    right; rfl
  · simpa [ha] using h

/-- Book.return_book keeps the status within the two enum values. -/
theorem return_book_valid (b : Book) (h : ValidStatus b) :
    ValidStatus (Book.return_book b).2 := by
  unfold Book.return_book
  by_cases ha : b.is_available
  · simpa [ha] using h
  · simp only [ha, Bool.not_false, if_pos]
    left; rfl

/-- C6: every constructed record has status available or issued, a
missing or invalid status defaults to available (also for entries read
from disk), and add, issue, return, load and the save-then-load round
trip all preserve the two-value property. -/
theorem status_enum_spec :
    (∀ t a i s, ValidStatus (mkBook t a i s)) ∧
    (∀ t a i s, s ≠ "available" → s ≠ "issued" →
      (mkBook t a i s).status = "available") ∧
    (∀ e : Entry, ValidStatus (Book.from_dict e)) ∧
    (∀ e : Entry, e.status = none → (Book.from_dict e).status = "available") ∧
    (∀ file, ∀ b ∈ load file, ValidStatus b) ∧
    (∀ books book books', add_book books book = Except.ok books' →
      (∀ b ∈ books, ValidStatus b) → ValidStatus book →
      ∀ b ∈ books', ValidStatus b) ∧
    (∀ books isbn, (∀ b ∈ books, ValidStatus b) →
      ∀ b ∈ (issue_book_by_isbn books isbn).2, ValidStatus b) ∧
    (∀ books isbn, (∀ b ∈ books, ValidStatus b) →
      ∀ b ∈ (return_book_by_isbn books isbn).2, ValidStatus b) ∧
    (∀ books, ∀ b ∈ load (some (save books)), ValidStatus b) := by
  refine ⟨mkBook_valid, ?_, from_dict_valid, ?_, load_valid, ?_, ?_, ?_, ?_⟩
  · intro t a i s h1 h2
    unfold mkBook
    simp [h1, h2]
  · intro e he
    unfold Book.from_dict
    rw [he]
    simp only [Option.getD_none]
    rw [show pyStrip "available" = "available" from by decide]
    unfold mkBook
    simp
  · intro books book books' hadd hall hbook
    unfold add_book at hadd
    cases hfind : search_by_isbn books book.isbn with
    | some x => rw [hfind] at hadd; exact absurd hadd (by simp)
    | none =>
      rw [hfind] at hadd
      injection hadd with hadd
      subst hadd
      intro b hb
      rcases List.mem_append.mp hb with h1 | h1
      · exact hall b h1
      · rw [List.mem_singleton.mp h1]; exact hbook
  · intro books isbn hall
    exact updateFirst_preserves ValidStatus _ _ issue_valid books hall
  · intro books isbn hall
    exact updateFirst_preserves ValidStatus _ _ return_book_valid books hall
  · intro books
    exact load_valid (some (save books))

/-- Witness for C6: defaulting and validity evaluated at concrete
inputs, including an invalid status and an entry with no status key. -/
theorem status_enum_spec_witness :
    (mkBook "a" "b" "c" "weird").status = "available" ∧
    (Book.from_dict ⟨some "T", none, some "1", none⟩).status = "available" ∧
    ValidStatus (mkBook "T" "A" "1" "issued") :=
  ⟨status_enum_spec.2.1 "a" "b" "c" "weird" (by decide) (by decide),
   status_enum_spec.2.2.2.1 ⟨some "T", none, some "1", none⟩ rfl,
   status_enum_spec.1 "T" "A" "1" "issued"⟩

end LabRepo
